import Mathlib

/-
Verification of the conditional-route suppressor in
src/auditor/lib/cloudmapperauditor-stack.js (CloudmapperauditorStack).

The stack reads a YAML config, exits when the s3_bucket field still holds its
placeholder, builds a VPC with maxAzs 2 and no NAT gateways, creates a single
always-false CfnCondition, and attaches that condition to every child of every
private subnet whose constructor name is exactly "CfnRoute", so the default
routes are never materialized and no NAT gateway is billed.

The @aws-cdk resource-graph library is not part of this repository; the shape
it gives a subnet's children is modelled from the specification (sections 3
and 6), and those definitions are marked "Modelled from the spec". Everything
else is translated directly from the JavaScript source.
-/

set_option maxRecDepth 8000
set_option linter.unusedVariables false

namespace Cloudmapper

/-- Provisioning-time CloudFormation value: a boolean literal or a reference
to a template parameter whose value is substituted at deployment time. -/
inductive CfnValue where
  | lit (b : Bool)
  | param (n : String)
deriving DecidableEq

/-- Evaluate a value under a substitution of parameter values. -/
def CfnValue.eval (env : String → Bool) : CfnValue → Bool
  | .lit b => b
  | .param n => env n

/-- Condition expression language; the only form the stack uses is
cdk.Fn.conditionEquals (source line 62). -/
inductive CondExpr where
  | conditionEquals (a b : CfnValue)
deriving DecidableEq

/-- Evaluate a condition expression under a parameter substitution:
conditionEquals is true exactly when both sides evaluate to the same value. -/
def CondExpr.eval (env : String → Bool) : CondExpr → Bool
  | .conditionEquals a b => CfnValue.eval env a == CfnValue.eval env b

/-- A named CloudFormation condition (cdk.CfnCondition, source lines 58-64). -/
structure CfnCondition where
  name : String
  expression : CondExpr
deriving DecidableEq

/-- The always-false condition the stack creates once (source lines 58-64):
its expression checks whether literal true equals literal false. -/
def exclude_condition : CfnCondition :=
  { name := "exclude-default-route-subnet",
    expression := CondExpr.conditionEquals (CfnValue.lit true) (CfnValue.lit false) }

/-- A child construct of a subnet node: its runtime constructor name
(child.constructor.name, source line 70) and its cfnOptions.condition slot
(source line 71). A condition is referenced, not copied: the slot stores an
index into the stack's list of created conditions. -/
structure ChildResource where
  constructorName : String
  condition : Option Nat
deriving DecidableEq

/-- A subnet as the suppressor sees it: the ordered children of its node. -/
structure Subnet where
  children : List ChildResource
deriving DecidableEq

/-- The network: private and public subnet lists as exposed by the library. -/
structure Vpc where
  privateSubnets : List Subnet
  publicSubnets : List Subnet
deriving DecidableEq

/-- Modelled from the spec: the resource-graph library (the @aws-cdk/aws-ec2
Vpc construct) is outside this repository. Per spec sections 3 and 6, a
private subnet's generated children are its subnet resource, its route table,
the route-table association, and the default-route resource the framework
still instantiates; none carries a creation condition initially. -/
def mkPrivateSubnet : Subnet :=
  { children :=
      [ { constructorName := "CfnSubnet", condition := none },
        { constructorName := "CfnRouteTable", condition := none },
        { constructorName := "CfnSubnetRouteTableAssociation", condition := none },
        { constructorName := "CfnRoute", condition := none } ] }

/-- Modelled from the spec: a public subnet's generated children, its
internet-gateway default route included, none carrying a creation condition. -/
def mkPublicSubnet : Subnet :=
  { children :=
      [ { constructorName := "CfnSubnet", condition := none },
        { constructorName := "CfnRouteTable", condition := none },
        { constructorName := "CfnSubnetRouteTableAssociation", condition := none },
        { constructorName := "CfnRoute", condition := none } ] }

/-- Modelled from the spec: Network(max_AZs, nat_gateway_count) yields one
public/private subnet pair per requested availability zone (spec sections 3,
6 and property 8.1); the nat_gateway_count does not change the child shape,
because the framework's internal model still instantiates default-route
resources for private subnets. -/
def ec2VpcCreate (maxAzs natGateways : Nat) : Vpc :=
  { privateSubnets := List.replicate maxAzs mkPrivateSubnet,
    publicSubnets := List.replicate maxAzs mkPublicSubnet }

/-- Inner-loop body of the suppressor (source lines 70-72): when the child's
constructor name is exactly "CfnRoute", store the condition reference in its
cfnOptions; otherwise leave the child untouched. -/
def setExcludeCondition (cond : Nat) (child : ChildResource) : ChildResource :=
  if child.constructorName == "CfnRoute" then
    { child with condition := some cond }
  else
    child

/-- Per-subnet pass of the suppressor: the inner loop over
subnet.node.children (source lines 69-73). -/
def suppressSubnetRoutes (cond : Nat) (s : Subnet) : Subnet :=
  { children := s.children.map (setExcludeCondition cond) }

/-- The conditional-route suppressor (source lines 68-74): for each private
subnet, for each of its children, attach the referenced condition to every
child whose constructor name is "CfnRoute". Public subnets are not visited. -/
def suppressDefaultRoutes (cond : Nat) (vpc : Vpc) : Vpc :=
  { vpc with privateSubnets := vpc.privateSubnets.map (suppressSubnetRoutes cond) }

/-- Modelled from the spec (glossary, "Creation condition"): whether a child
resource is materialized when the plan is applied under a parameter
substitution. A resource with no creation condition is always created; one
gated by a condition is created only when the referenced condition's
expression evaluates true. -/
def materializes (conds : List CfnCondition) (env : String → Bool)
    (ch : ChildResource) : Bool :=
  match ch.condition with
  | none => true
  | some i =>
    match conds.get? i with
    | some c => CondExpr.eval env c.expression
    | none => false

/-- The externally supplied configuration record read from
./s3_bucket_files/cdk_app.yaml (source line 34). A field may be absent, which
in JavaScript reads as undefined. -/
structure Config where
  s3_bucket : Option String
  iam_role : Option String
  alarm_sns_arn : Option String
deriving DecidableEq

/-- The placeholder bucket name checked at source line 36. -/
def placeholderBucket : String := "MYCOMPANY-cloudmapper"

/-- The operator-visible message printed before exiting (source line 37). -/
def configMessage : String :=
  "You must configure the CDK app by editing ./s3_bucket_files/cdk_app.yaml"

/-- JavaScript string coercion applied when a config value is concatenated
into an ARN: undefined coerces to the string "undefined". -/
def jsToString : Option String → String
  | none => "undefined"
  | some s => s

/-- The resources the constructor creates once the placeholder check passes,
restricted to those the claims mention: the suppressed VPC, the list of
created conditions, the resource lists of the six task-role policy statements
in source order, and the alarm forwarder's ALARM_SNS environment value and
policy resource list, which hold the config value verbatim. -/
structure StackResult where
  vpc : Vpc
  conditions : List CfnCondition
  taskRolePolicyResources : List (List String)
  forwarderEnvAlarmSns : Option String
  forwarderPolicyResources : List (Option String)
deriving DecidableEq

/-- Outcome of running the stack constructor: either the process exits with a
status code after printing a message, or the resource graph is built. -/
inductive StackOutcome where
  | exited (code : Nat) (message : String)
  | built (result : StackResult)
deriving DecidableEq

/-- Resource construction performed after the placeholder check (source lines
41-201): the VPC with maxAzs 2 and natGateways 0, the single always-false
condition (referenced by index 0), the route suppression over the private
subnets, the task-role policy ARNs built by string concatenation from the
config, and the alarm forwarder environment and policy. -/
def mkStackResult (config : Config) : StackResult :=
  { vpc := suppressDefaultRoutes 0 (ec2VpcCreate 2 0),
    conditions := [exclude_condition],
    taskRolePolicyResources :=
      [ ["arn:aws:iam::*:role/" ++ jsToString config.iam_role],
        ["arn:aws:s3:::" ++ jsToString config.s3_bucket],
        ["arn:aws:s3:::" ++ jsToString config.s3_bucket ++ "/*"],
        ["*"], ["*"], ["*"] ],
    forwarderEnvAlarmSns := config.alarm_sns_arn,
    forwarderPolicyResources := [config.alarm_sns_arn] }

/-- The stack constructor (source lines 30-201): if the config's s3_bucket
field still equals the placeholder, print the message and exit with status 1
before constructing any resource; otherwise build the whole resource graph. -/
def buildStack (config : Config) : StackOutcome :=
  if config.s3_bucket = some placeholderBucket then
    StackOutcome.exited 1 configMessage
  else
    StackOutcome.built (mkStackResult config)

/-- A sample properly edited configuration, used by the witnesses. -/
def exampleConfig : Config :=
  { s3_bucket := some "prod-cloudmapper",
    iam_role := some "cloudmapper-audit",
    alarm_sns_arn := some "arn:aws:sns:us-east-1:123456789012:alerts" }

/-- A configuration still holding the placeholder bucket. -/
def placeholderConfig : Config :=
  { s3_bucket := some placeholderBucket,
    iam_role := some "cloudmapper-audit",
    alarm_sns_arn := none }

/-- A configuration with every field absent. -/
def unsetConfig : Config :=
  { s3_bucket := none, iam_role := none, alarm_sns_arn := none }

theorem setExcludeCondition_idem (cond : Nat) (ch : ChildResource) :
    setExcludeCondition cond (setExcludeCondition cond ch) =
      setExcludeCondition cond ch := by
  by_cases h : ch.constructorName = "CfnRoute" <;>
    simp [setExcludeCondition, h]

theorem suppressSubnetRoutes_idem (cond : Nat) (s : Subnet) :
    suppressSubnetRoutes cond (suppressSubnetRoutes cond s) =
      suppressSubnetRoutes cond s := by
  cases s with
  | mk cs =>
    simp only [suppressSubnetRoutes, List.map_map]
    induction cs with
    | nil => rfl
    | cons a t ih =>
      simp only [List.map_cons, Function.comp_apply, setExcludeCondition_idem]
      simpa using ih

theorem map_setExclude_noop (cond : Nat) (l : List ChildResource)
    (h : ∀ ch ∈ l, ch.constructorName ≠ "CfnRoute") :
    l.map (setExcludeCondition cond) = l := by
  induction l with
  | nil => rfl
  | cons a t ih =>
    have ha := h a (List.mem_cons_self a t)
    have ht : ∀ ch ∈ t, ch.constructorName ≠ "CfnRoute" :=
      fun ch hch => h ch (List.mem_cons_of_mem a hch)
    simp [setExcludeCondition, ha, ih ht]

/-- C1: for every properly edited configuration the stack builds; it creates
the always-false condition exactly once, and every private subnet of the
constructed network has exactly one default-route child (constructor name
"CfnRoute"), whose attached condition references that single shared condition
instance (index 0 of the stack's condition list). -/
theorem C1_private_routes_share_one_false_condition (config : Config)
    (h : config.s3_bucket ≠ some placeholderBucket) :
    buildStack config = StackOutcome.built (mkStackResult config) ∧
    (mkStackResult config).conditions = [exclude_condition] ∧
    ∀ s ∈ (mkStackResult config).vpc.privateSubnets,
      (s.children.filter (fun ch => ch.constructorName == "CfnRoute")).length = 1 ∧
      ∀ ch ∈ s.children, ch.constructorName = "CfnRoute" → ch.condition = some 0 := by
  refine ⟨?_, rfl, ?_⟩
  · unfold buildStack
    rw [if_neg h]
  · simp only [mkStackResult]
    decide

/-- C1 witness: the theorem applied to the sample configuration. -/
theorem C1_witness :
    exampleConfig.s3_bucket ≠ some placeholderBucket ∧
    (buildStack exampleConfig = StackOutcome.built (mkStackResult exampleConfig) ∧
     (mkStackResult exampleConfig).conditions = [exclude_condition] ∧
     ∀ s ∈ (mkStackResult exampleConfig).vpc.privateSubnets,
       (s.children.filter (fun ch => ch.constructorName == "CfnRoute")).length = 1 ∧
       ∀ ch ∈ s.children, ch.constructorName = "CfnRoute" → ch.condition = some 0) :=
  ⟨by decide, C1_private_routes_share_one_false_condition exampleConfig (by decide)⟩

/-- C2: the always-false creation condition, built as the equality of literal
true and literal false, evaluates to false under every substitution of
parameter values, so no resource gated by it is ever materialized. -/
theorem C2_condition_never_true (env : String → Bool) :
    CondExpr.eval env exclude_condition.expression = false ∧
    ∀ ch : ChildResource, ch.condition = some 0 →
      materializes [exclude_condition] env ch = false := by
  refine ⟨rfl, ?_⟩
  intro ch h
  simp [materializes, h, CondExpr.eval, CfnValue.eval, exclude_condition]

/-- C2 witness: the theorem applied at a concrete substitution and a concrete
gated route resource. -/
theorem C2_witness :
    CondExpr.eval (fun _ => true) exclude_condition.expression = false ∧
    materializes [exclude_condition] (fun _ => true)
      { constructorName := "CfnRoute", condition := some 0 } = false :=
  ⟨(C2_condition_never_true (fun _ => true)).1,
   (C2_condition_never_true (fun _ => true)).2
     { constructorName := "CfnRoute", condition := some 0 } rfl⟩

/-- C3: the suppressor changes nothing outside the private subnets: on any
network it returns the public-subnet list unchanged, and in the constructed
stack no child of any public subnet, its internet-gateway route included,
carries a creation condition. -/
theorem C3_public_subnets_untouched (v : Vpc) (cond : Nat) (config : Config) :
    (suppressDefaultRoutes cond v).publicSubnets = v.publicSubnets ∧
    ∀ s ∈ (mkStackResult config).vpc.publicSubnets,
      ∀ ch ∈ s.children, ch.condition = none := by
  refine ⟨rfl, ?_⟩
  simp only [mkStackResult]
  decide

/-- C3 witness: the theorem applied to the constructed network and the first
child of a public subnet. -/
theorem C3_witness :
    (suppressDefaultRoutes 0 (ec2VpcCreate 2 0)).publicSubnets =
      (ec2VpcCreate 2 0).publicSubnets ∧
    ({ constructorName := "CfnSubnet", condition := none } : ChildResource).condition = none :=
  ⟨(C3_public_subnets_untouched (ec2VpcCreate 2 0) 0 exampleConfig).1,
   (C3_public_subnets_untouched (ec2VpcCreate 2 0) 0 exampleConfig).2
     mkPublicSubnet (by decide)
     { constructorName := "CfnSubnet", condition := none } (by decide)⟩

/-- C4: when the config's s3_bucket still equals the placeholder, the
constructor exits with status 1 after printing the operator message and
builds no resource; for every other configuration construction proceeds. -/
theorem C4_placeholder_halts (config : Config) :
    (config.s3_bucket = some placeholderBucket →
      buildStack config = StackOutcome.exited 1 configMessage) ∧
    (config.s3_bucket ≠ some placeholderBucket →
      buildStack config = StackOutcome.built (mkStackResult config)) := by
  constructor
  · intro h
    unfold buildStack
    rw [if_pos h]
  · intro h
    unfold buildStack
    rw [if_neg h]

/-- C4 witness: the theorem applied to a placeholder configuration and to a
properly edited one. -/
theorem C4_witness :
    buildStack placeholderConfig = StackOutcome.exited 1 configMessage ∧
    buildStack exampleConfig = StackOutcome.built (mkStackResult exampleConfig) :=
  ⟨(C4_placeholder_halts placeholderConfig).1 rfl,
   (C4_placeholder_halts exampleConfig).2 (by decide)⟩

/-- C5: for every requested availability-zone count of at least one, the
constructed network has exactly that many private subnets and exactly that
many public subnets, one public/private pair per availability zone. -/
theorem C5_subnet_counts (maxAzs natGateways : Nat) (h : 1 ≤ maxAzs) :
    (ec2VpcCreate maxAzs natGateways).privateSubnets.length = maxAzs ∧
    (ec2VpcCreate maxAzs natGateways).publicSubnets.length = maxAzs := by
  constructor <;> simp [ec2VpcCreate]

/-- C5 witness: the theorem applied at the stack's own request of two
availability zones and zero NAT gateways. -/
theorem C5_witness :
    1 ≤ 2 ∧
    ((ec2VpcCreate 2 0).privateSubnets.length = 2 ∧
     (ec2VpcCreate 2 0).publicSubnets.length = 2) :=
  ⟨by decide, C5_subnet_counts 2 0 (by decide)⟩

/-- C6: the suppressor is idempotent: applying it a second time with the same
condition reference to the already-suppressed network changes nothing, so no
duplicate attachment occurs and the subnet count is unchanged. -/
theorem C6_suppressor_idempotent (cond : Nat) (v : Vpc) :
    suppressDefaultRoutes cond (suppressDefaultRoutes cond v) =
      suppressDefaultRoutes cond v := by
  cases v with
  | mk priv pub =>
    simp only [suppressDefaultRoutes, List.map_map]
    induction priv with
    | nil => rfl
    | cons a t ih =>
      simp only [List.map_cons, Function.comp_apply, suppressSubnetRoutes_idem]
      simpa using ih

/-- C7: a fresh child (no condition yet attached) is modified by the
suppressor exactly when its constructor name is "CfnRoute"; route tables and
route-table associations are returned unchanged, and no child's constructor
name is ever altered. -/
theorem C7_route_kind_classification (cond : Nat) (ch : ChildResource)
    (hfresh : ch.condition = none) :
    (setExcludeCondition cond ch ≠ ch ↔ ch.constructorName = "CfnRoute") ∧
    ((ch.constructorName = "CfnRouteTable" ∨
      ch.constructorName = "CfnSubnetRouteTableAssociation") →
      setExcludeCondition cond ch = ch) ∧
    (setExcludeCondition cond ch).constructorName = ch.constructorName := by
  by_cases h : ch.constructorName = "CfnRoute"
  · refine ⟨⟨fun _ => h, fun _ hEq => ?_⟩, fun hk => ?_, ?_⟩
    · have hc := congrArg ChildResource.condition hEq
      simp [setExcludeCondition, h, hfresh] at hc
    · rcases hk with hk | hk <;> rw [hk] at h <;> simp at h
    · simp [setExcludeCondition, h]
  · refine ⟨⟨fun hne => ?_, fun hk => absurd hk h⟩, fun _ => ?_, ?_⟩
    · exact absurd (by simp [setExcludeCondition, h]) hne
    · simp [setExcludeCondition, h]
    · simp [setExcludeCondition, h]

/-- C7 witness: the theorem applied to a fresh default-route child. -/
theorem C7_witness :
    ({ constructorName := "CfnRoute", condition := none } : ChildResource).condition = none ∧
    ((setExcludeCondition 0 { constructorName := "CfnRoute", condition := none } ≠
        ({ constructorName := "CfnRoute", condition := none } : ChildResource) ↔
      ({ constructorName := "CfnRoute", condition := none } : ChildResource).constructorName =
        "CfnRoute") ∧
     (({ constructorName := "CfnRoute", condition := none } : ChildResource).constructorName =
        "CfnRouteTable" ∨
      ({ constructorName := "CfnRoute", condition := none } : ChildResource).constructorName =
        "CfnSubnetRouteTableAssociation" →
      setExcludeCondition 0 { constructorName := "CfnRoute", condition := none } =
        { constructorName := "CfnRoute", condition := none }) ∧
     (setExcludeCondition 0 { constructorName := "CfnRoute", condition := none }).constructorName =
       ({ constructorName := "CfnRoute", condition := none } : ChildResource).constructorName) :=
  ⟨rfl, C7_route_kind_classification 0
    { constructorName := "CfnRoute", condition := none } rfl⟩

/-- C8: a private subnet with no child whose constructor name is "CfnRoute"
is passed through entirely unchanged: the suppressor attaches zero conditions
for it and signals nothing, a silent no-op rather than a failure. -/
theorem C8_silent_noop (cond : Nat) (s : Subnet)
    (h : ∀ ch ∈ s.children, ch.constructorName ≠ "CfnRoute") :
    suppressSubnetRoutes cond s = s := by
  cases s with
  | mk cs =>
    simp only [suppressSubnetRoutes]
    rw [map_setExclude_noop cond cs (by simpa using h)]

/-- C8 witness: the theorem applied to a subnet holding only a route table
and its association. -/
theorem C8_witness :
    (∀ ch ∈ (Subnet.mk
        [ { constructorName := "CfnRouteTable", condition := none },
          { constructorName := "CfnSubnetRouteTableAssociation", condition := none } ]).children,
      ch.constructorName ≠ "CfnRoute") ∧
    suppressSubnetRoutes 0 (Subnet.mk
        [ { constructorName := "CfnRouteTable", condition := none },
          { constructorName := "CfnSubnetRouteTableAssociation", condition := none } ]) =
      Subnet.mk
        [ { constructorName := "CfnRouteTable", condition := none },
          { constructorName := "CfnSubnetRouteTableAssociation", condition := none } ] :=
  ⟨by decide, C8_silent_noop 0 _ (by decide)⟩

/-- C9: the placeholder check inspects only the s3_bucket field: every
configuration whose s3_bucket differs from the placeholder builds, absence
included, and the unvalidated iam_role and alarm_sns_arn values are embedded
verbatim into the generated IAM ARNs and the forwarder environment, with
absence coerced to the string "undefined" inside concatenated ARNs. -/
theorem C9_only_bucket_checked (config : Config)
    (h : config.s3_bucket ≠ some placeholderBucket) :
    buildStack config = StackOutcome.built (mkStackResult config) ∧
    (mkStackResult config).taskRolePolicyResources.head? =
      some ["arn:aws:iam::*:role/" ++ jsToString config.iam_role] ∧
    (mkStackResult config).forwarderEnvAlarmSns = config.alarm_sns_arn ∧
    (mkStackResult config).forwarderPolicyResources = [config.alarm_sns_arn] := by
  refine ⟨?_, rfl, rfl, rfl⟩
  unfold buildStack
  rw [if_neg h]

/-- C9 witness: the theorem applied to a configuration with every field
absent; construction proceeds and the role ARN embeds "undefined". -/
theorem C9_witness :
    unsetConfig.s3_bucket ≠ some placeholderBucket ∧
    (buildStack unsetConfig = StackOutcome.built (mkStackResult unsetConfig) ∧
     (mkStackResult unsetConfig).taskRolePolicyResources.head? =
       some ["arn:aws:iam::*:role/" ++ jsToString unsetConfig.iam_role] ∧
     (mkStackResult unsetConfig).forwarderEnvAlarmSns = unsetConfig.alarm_sns_arn ∧
     (mkStackResult unsetConfig).forwarderPolicyResources = [unsetConfig.alarm_sns_arn]) :=
  ⟨by decide, C9_only_bucket_checked unsetConfig (by decide)⟩

/-- C10: the suppressor is a total transformation of every finite network:
for every input, whatever the children's constructor names, it yields a
network with the same number of private subnets, the public subnets
unchanged, and every private subnet keeping the same number of children. -/
theorem C10_total_structure_preserving (cond : Nat) (v : Vpc) :
    (suppressDefaultRoutes cond v).privateSubnets.length =
      v.privateSubnets.length ∧
    (suppressDefaultRoutes cond v).publicSubnets = v.publicSubnets ∧
    ∀ i : Nat,
      ((suppressDefaultRoutes cond v).privateSubnets.get? i).map
          (fun s => s.children.length) =
        (v.privateSubnets.get? i).map (fun s => s.children.length) := by
  refine ⟨by simp [suppressDefaultRoutes], rfl, ?_⟩
  intro i
  simp only [suppressDefaultRoutes, List.get?_eq_getElem?, List.getElem?_map,
    Option.map_map]
  cases hv : v.privateSubnets[i]? with
  | none => rfl
  | some s => simp [suppressSubnetRoutes]

end Cloudmapper
